import Mathlib

/-!
# Verification of the claude-draws durable-workflow orchestration core

This file gives a shallow embedding of the Temporal workflows and activities
of the claude-draws backend (`backend/workflows/check_submissions.py`,
`backend/workflows/create_artwork.py`, `backend/workflows/activities.py`,
`backend/claudedraw/cli.py`) and proves properties of the embedded code.

External effects (D1 database queries, OBS websocket calls, the browser
automation, uploads) are represented by explicit result values threaded in
as environment structures; workflows are deterministic functions from those
environments to an event trace plus a terminal outcome, mirroring Temporal's
deterministic-replay contract.  Behaviour of the Temporal engine itself
(retry scheduling, heartbeat-timeout enforcement), which is not part of this
repository, is modelled from the specification and marked as such.
-/

set_option maxRecDepth 100000

/-! ## D1 submissions table and `update_submission_status`
    (backend/workflows/activities.py, lines 619-658) -/

/-- A row of the D1 `submissions` table, with the columns touched by
`update_submission_status`. -/
structure SubmissionRow where
  id : String
  status : String
  artwork_id : Option String
  error_message : Option String
  completed_at : Option Nat
deriving DecidableEq, Repr

/-- The `submissions` table is a list of rows. -/
abbrev SubmissionsDb := List SubmissionRow

/-- Status of a submission row, looked up by id (first match). -/
def statusOf (db : SubmissionsDb) (sid : String) : Option String :=
  (db.find? (fun r => r.id = sid)).map SubmissionRow.status

/-- Embedding of the `update_submission_status` activity
(activities.py lines 619-658).  For status `"completed"` it runs
`UPDATE submissions SET status = ?, completed_at = ?, artwork_id = ? WHERE id = ?`,
for `"failed"` it runs
`UPDATE submissions SET status = ?, error_message = ? WHERE id = ?`,
and for every other status (in particular `"processing"`) it runs
`UPDATE submissions SET status = ? WHERE id = ?`.
Each branch filters rows by `id` only; no branch inspects the current status.
`query_d1` raises only on HTTP-transport errors, so absent a transport error
the activity returns normally whatever the row's prior status was: the
returned flag records that the call reported success. -/
def update_submission_status (db : SubmissionsDb) (sid status : String)
    (artworkId errorMessage : Option String) (nowIso : Nat) :
    SubmissionsDb × Bool :=
  if status = "completed" then
    (db.map (fun r => if r.id = sid then
      { r with status := status, completed_at := some nowIso,
               artwork_id := artworkId } else r), true)
  else if status = "failed" then
    (db.map (fun r => if r.id = sid then
      { r with status := status, error_message := errorMessage } else r), true)
  else
    (db.map (fun r => if r.id = sid then { r with status := status } else r),
     true)

/-- The claim operation used by `CreateArtworkWorkflow.run`
(create_artwork.py lines 68-75): mark a submission as being worked on. -/
def claimProcessing (db : SubmissionsDb) (sid : String) : SubmissionsDb × Bool :=
  update_submission_status db sid "processing" none none 0

/-! ## Countdown text formatting (`update_countdown_text`,
    activities.py lines 790-820) -/

/-- Python `f"{secs:02d}"`: decimal rendering zero-padded to width at
least two. -/
def pad2 (n : Nat) : String :=
  if n < 10 then "0" ++ toString n else toString n

/-- Embedding of the text computed by `update_countdown_text`
(activities.py lines 803-805):
`minutes = seconds // 60`, `secs = seconds % 60`,
`f"Next check: {minutes}:{secs:02d}"`. -/
def countdownText (seconds : Nat) : String :=
  "Next check: " ++ toString (seconds / 60) ++ ":" ++ pad2 (seconds % 60)

/-- The countdown text as the specification words it: `"Next check: M:SS"` with
`M = s // 60` and `SS = s % 60` zero-padded to two digits (tens digit then
ones digit). -/
def countdownTextSpec (s : Nat) : String :=
  "Next check: " ++ toString (s / 60) ++ ":" ++
    (toString (s % 60 / 10) ++ toString (s % 60 % 10))

/-- Python `range(start, stop, -1)` on naturals with `start ≥ stop`:
the list `start, start-1, ..., stop+1`. -/
def pyRangeDown (start stop : Nat) : List Nat :=
  (List.range (start - stop)).map (fun i => start - i)

/-- The values taken by `seconds_remaining` in the countdown loop of
`CheckSubmissionsWorkflow.run` (check_submissions.py line 154):
`range(60, 0, -1)`. -/
def countdownSeconds : List Nat := pyRangeDown 60 0

example : countdownText 125 = "Next check: 2:05" := by decide
example : countdownText 60 = "Next check: 1:00" := by decide
example : countdownText 59 = "Next check: 0:59" := by decide
example : countdownSeconds.head? = some 60 := by decide
example : countdownSeconds.getLast? = some 1 := by decide
example : (claimProcessing [⟨"sub-1", "processing", none, none, none⟩] "sub-1").2 = true := by
  decide

/-! ## CheckSubmissionsWorkflow (backend/workflows/check_submissions.py) -/

/-- Default scene names (activities.py lines 66-67; env-overridable, the
defaults are used here). -/
def OBS_MAIN_SCENE : String := "Main Scene"

/-- Default screensaver scene name (activities.py line 67). -/
def OBS_SCREENSAVER_SCENE : String := "Screensaver"

/-- One entry of a workflow run's event history: an activity invocation, a
child-workflow invocation or a durable timer, with the arguments the
workflow passes. -/
inductive Ev where
  | switch_obs_scene (scene : String)
  | ensure_obs_streaming
  | visit_gallery (cdpUrl : String)
  | check_for_pending_submissions
  | start_child_workflow (name cdpUrl : String) (continuous : Bool)
      (submissionId : String)
  | update_countdown_text (seconds : Nat)
  | sleepTimer (seconds : Nat)
  | check_inactivity (thresholdMinutes : Nat)
deriving DecidableEq, Repr

/-- The dictionary returned by `CheckSubmissionsWorkflow.run` when it
returns instead of continuing as new. -/
structure CheckReturn where
  submission_id : Option String
  artwork_workflow_id : Option String
  artwork_url : Option String
deriving DecidableEq, Repr

/-- Terminal outcome of one `CheckSubmissionsWorkflow` run:
`workflow.continue_as_new(args=[cdp_url, continuous])` raises inside
Temporal, so a run either completes with a return dictionary or is replaced
by a successor run carrying exactly the two explicit arguments. -/
inductive CheckTerminal where
  | completed (r : CheckReturn)
  | continueAsNew (cdpUrl : String) (continuous : Bool)
deriving DecidableEq, Repr

/-- Results of the externally-effectful activities one check cycle invokes:
`check_for_pending_submissions` (the id of the found submission, if any),
the awaited child `CreateArtworkWorkflow`'s `artwork_url`,
`check_inactivity_and_stop_streaming`'s boolean, and `workflow.now()`'s
timestamp used to mint the child workflow id. -/
structure CheckEnv where
  pending : Option String
  childArtworkUrl : String
  inactivityStopped : Bool
  nowTimestamp : Nat
deriving DecidableEq, Repr

/-- The countdown loop body (check_submissions.py lines 154-164): for each
`seconds_remaining` in `range(60, 0, -1)`, run `update_countdown_text` then
sleep one second. -/
def countdownBlock : List Ev :=
  countdownSeconds.flatMap (fun s => [.update_countdown_text s, .sleepTimer 1])

/-- Embedding of one `CheckSubmissionsWorkflow.run` cycle
(check_submissions.py lines 52-196): switch to the main scene, ensure
streaming, visit the gallery, check for a pending submission; if one is
found, run `CreateArtworkWorkflow` as a child with args
`[cdp_url, False, submission_id]` and in continuous mode continue as new
with `[cdp_url, continuous]`; if none is found, in continuous mode switch to
the screensaver, run the 60-step countdown, check inactivity (sleeping 60 s
if streaming stopped) and continue as new with `[cdp_url, continuous]`;
outside continuous mode return the result dictionary. -/
def runCheckIteration (cdpUrl : String) (continuous : Bool) (env : CheckEnv) :
    List Ev × CheckTerminal :=
  let pre : List Ev :=
    [.switch_obs_scene OBS_MAIN_SCENE, .ensure_obs_streaming,
     .visit_gallery cdpUrl, .check_for_pending_submissions]
  match env.pending with
  | some sid =>
    let artworkWorkflowId := "claude-draws-" ++ toString env.nowTimestamp
    let evs := pre ++ [.start_child_workflow "CreateArtworkWorkflow" cdpUrl false sid]
    if continuous then
      (evs, .continueAsNew cdpUrl continuous)
    else
      (evs, .completed ⟨some sid, some artworkWorkflowId, some env.childArtworkUrl⟩)
  | none =>
    if continuous then
      let evs := pre ++ [.switch_obs_scene OBS_SCREENSAVER_SCENE] ++ countdownBlock
        ++ [.check_inactivity 15]
        ++ (if env.inactivityStopped then [.sleepTimer 60] else [])
      (evs, .continueAsNew cdpUrl continuous)
    else
      (pre, .completed ⟨none, none, none⟩)

/-- Run a chain of check cycles: each continue-as-new starts a fresh run
with the carried-forward arguments and the next environment; a completed
run ends the chain.  Returns, per executed run, its (freshly reset) event
history and its terminal outcome. -/
def runCheckLoop (cdpUrl : String) (continuous : Bool) :
    List CheckEnv → List (List Ev × CheckTerminal)
  | [] => []
  | env :: rest =>
    match runCheckIteration cdpUrl continuous env with
    | (evs, .continueAsNew url cont) =>
        (evs, .continueAsNew url cont) :: runCheckLoop url cont rest
    | (evs, .completed r) => [(evs, .completed r)]

/-- `True` for the child-workflow events of a history. -/
def Ev.isStartChild : Ev → Bool
  | .start_child_workflow _ _ _ _ => true
  | _ => false

/-- `True` for countdown-text updates. -/
def Ev.isCountdownUpdate : Ev → Bool
  | .update_countdown_text _ => true
  | _ => false

/-- The C2 scenario: three check cycles that find nothing, then one that
finds submission `"sub-1"`. -/
def c2Envs : List CheckEnv :=
  [⟨none, "", false, 0⟩, ⟨none, "", false, 1⟩, ⟨none, "", false, 2⟩,
   ⟨some "sub-1", "https://claudedraws.com/artwork/claudedraws-9", false, 9⟩]

/-- The runs executed in the C2 scenario, in continuous mode. -/
def c2Runs : List (List Ev × CheckTerminal) := runCheckLoop "cdp" true c2Envs

/-- The concatenated event trace of the C2 scenario. -/
def c2Trace : List Ev := (c2Runs.map Prod.fst).flatten

example : c2Runs.length = 4 := by decide
example : c2Trace.count (.update_countdown_text 60) = 3 := by decide

/-! ## CreateArtworkWorkflow (backend/workflows/create_artwork.py) -/

/-- Result of `browser_session_activity` (activities.py lines 108-115). -/
structure BrowserSessionResult where
  image_path : String
  response_html : String
  submission_id : Option String
  submission_email : Option String
  tab_url : String
  prompt : String
deriving DecidableEq, Repr

/-- History entry of a `CreateArtworkWorkflow` run: one constructor per
activity the workflow can invoke, carrying the arguments relevant here. -/
inductive AEv where
  | update_submission_status (sid status : String)
  | start_obs_recording
  | browser_session (cdpUrl : String) (submissionId : Option String)
  | stop_obs_recording
  | compress_video (videoPath : String)
  | extract_artwork_metadata
  | upload_image_to_r2 (artworkId : String)
  | upload_video_to_r2 (artworkId : String)
  | insert_artwork_to_d1 (artworkId : String) (videoUrl : Option String)
  | send_email_notification (email : String)
  | cleanup_tab (tabUrl : String)
deriving DecidableEq, Repr

/-- The dictionary `CreateArtworkWorkflow.run` returns. -/
structure ArtworkReturn where
  artwork_url : String
  submission_id : Option String
  artwork_id : String
deriving DecidableEq, Repr

/-- Outcomes of the externally-effectful activities a `CreateArtworkWorkflow`
run invokes, after their per-activity retries: `.error` means the activity
failed permanently (retries exhausted).  `send_email_notification` is absent
because the activity itself swallows every exception (activities.py lines
711-714). -/
structure ArtworkEnv where
  updateProcessing : Except String Unit
  startRecording : Except String Unit
  browserSession : Except String BrowserSessionResult
  stopRecording : Except String (Option String)
  compressVideo : Except String String
  extractMetadata : Except String (String × String)
  uploadImage : Except String String
  uploadVideo : Except String String
  insertD1 : Except String Unit
  updateCompleted : Except String Unit
  cleanupTab : Except String Unit
  nowTimestamp : Nat
deriving Repr

/-- Embedding of `CreateArtworkWorkflow.run` (create_artwork.py lines
62-266): the event history of the run together with its outcome.  Failures
of `start_obs_recording`, `stop_obs_recording`, `compress_video` and
`upload_video_to_r2` are caught and logged (try/except in the source);
failures of every other activity propagate and fail the run.
`compress_video` runs only when `stop_obs_recording` produced a video path,
and `upload_video_to_r2` only when compression produced a compressed path. -/
def runCreateArtwork (cdpUrl : String) (submissionId : Option String)
    (env : ArtworkEnv) : List AEv × Except String ArtworkReturn :=
  let t0 : List AEv := match submissionId with
    | some sid => [.update_submission_status sid "processing"]
    | none => []
  let r0 : Except String Unit := match submissionId with
    | some _ => env.updateProcessing
    | none => .ok ()
  match r0 with
  | .error e => (t0, .error e)
  | .ok _ =>
  -- start_obs_recording, attempted, failure caught
  let t1 := t0 ++ [.start_obs_recording]
  let t2 := t1 ++ [.browser_session cdpUrl submissionId]
  match env.browserSession with
  | .error e => (t2, .error e)
  | .ok br =>
  -- stop_obs_recording, attempted, failure caught; value used as video_path
  let t3 := t2 ++ [.stop_obs_recording]
  let videoPath : Option String := match env.stopRecording with
    | .ok vp => vp
    | .error _ => none
  let s4 : List AEv × Option String :=
    match videoPath with
    | some vp =>
      match env.compressVideo with
      | .ok c => (t3 ++ [.compress_video vp], some c)
      | .error _ => (t3 ++ [.compress_video vp], none)
    | none => (t3, none)
  let t4 := s4.1
  let compressedVideoPath := s4.2
  let artworkId := "claudedraws-" ++ toString env.nowTimestamp
  let t5 := t4 ++ [.extract_artwork_metadata]
  match env.extractMetadata with
  | .error e => (t5, .error e)
  | .ok _meta =>
  let t6 := t5 ++ [.upload_image_to_r2 artworkId]
  match env.uploadImage with
  | .error e => (t6, .error e)
  | .ok _imageUrl =>
  let s7 : List AEv × Option String :=
    match compressedVideoPath with
    | some _ =>
      match env.uploadVideo with
      | .ok u => (t6 ++ [.upload_video_to_r2 artworkId], some u)
      | .error _ => (t6 ++ [.upload_video_to_r2 artworkId], none)
    | none => (t6, none)
  let t7 := s7.1
  let videoUrl := s7.2
  let t8 := t7 ++ [.insert_artwork_to_d1 artworkId videoUrl]
  match env.insertD1 with
  | .error e => (t8, .error e)
  | .ok _ =>
  let artworkUrl := "https://claudedraws.com/artwork/" ++ artworkId
  let finish : List AEv → List AEv × Except String ArtworkReturn := fun t =>
    let tEnd := t ++ [.cleanup_tab br.tab_url]
    match env.cleanupTab with
    | .error e => (tEnd, .error e)
    | .ok _ => (tEnd, .ok ⟨artworkUrl, br.submission_id, artworkId⟩)
  match br.submission_id with
  | some sid2 =>
    let t9 := t8 ++ [.update_submission_status sid2 "completed"]
    match env.updateCompleted with
    | .error e => (t9, .error e)
    | .ok _ =>
      match br.submission_email with
      | some em => finish (t9 ++ [.send_email_notification em])
      | none => finish t9
  | none => finish t8

/-- `True` for `browser_session` events. -/
def AEv.isBrowserSession : AEv → Bool
  | .browser_session _ _ => true
  | _ => false

/-- `True` for `compress_video` events. -/
def AEv.isCompressVideo : AEv → Bool
  | .compress_video _ => true
  | _ => false

/-- `True` for `upload_video_to_r2` events. -/
def AEv.isUploadVideo : AEv → Bool
  | .upload_video_to_r2 _ => true
  | _ => false

/-- `True` for `extract_artwork_metadata` events. -/
def AEv.isExtractMetadata : AEv → Bool
  | .extract_artwork_metadata => true
  | _ => false

/-- `True` for `upload_image_to_r2` events. -/
def AEv.isUploadImage : AEv → Bool
  | .upload_image_to_r2 _ => true
  | _ => false

/-- `True` for `insert_artwork_to_d1` events. -/
def AEv.isInsertD1 : AEv → Bool
  | .insert_artwork_to_d1 _ _ => true
  | _ => false

/-- `True` for `cleanup_tab` events. -/
def AEv.isCleanupTab : AEv → Bool
  | .cleanup_tab _ => true
  | _ => false

/-! ## browser_session_activity error path (activities.py lines 504-512) -/

/-- Events of the browser-session activity's tab-cleanup error path. -/
inductive TabEv where
  | bodyRun
  | closeTabAttempt
  | closeTabFailureLogged
deriving DecidableEq, Repr

/-- Embedding of the exception handler of `browser_session_activity`
(activities.py lines 504-512): on any exception from the session body the
activity attempts `page.close()` inside a nested try; a failure of that
close is caught and logged; the bare `raise` then re-raises the original
exception.  On success no cleanup runs and the result is returned. -/
def browserSessionErrorPath (body : Except String BrowserSessionResult)
    (closeTab : Except String Unit) :
    List TabEv × Except String BrowserSessionResult :=
  match body with
  | .ok r => ([.bodyRun], .ok r)
  | .error e =>
    match closeTab with
    | .ok _ => ([.bodyRun, .closeTabAttempt], .error e)
    | .error _ =>
        ([.bodyRun, .closeTabAttempt, .closeTabFailureLogged], .error e)

/-! ## extract_artwork_metadata (activities.py lines 515-540) -/

/-- The fallback pair returned when structured extraction fails
(activities.py line 540). -/
def metadataFallback : String × String := ("(untitled)", "(no statement found)")

/-- Embedding of the `extract_artwork_metadata` activity (activities.py
lines 515-540): call the BAML extraction on the response HTML inside a
try/except; on success return the extracted pair, on any exception return
the fallback pair.  The BAML call is the activity's only effect, passed in
as a function. -/
def extract_artwork_metadata
    (bamlExtract : String → Except String (String × String))
    (responseHtml : String) : Except String (String × String) :=
  match bamlExtract responseHtml with
  | .ok m => .ok m
  | .error _ => .ok metadataFallback

/-- Retry policy the workflow configures for metadata extraction
(create_artwork.py lines 151-154). -/
def extractMetadataRetryMaxAttempts : Nat := 3

example :
    (runCreateArtwork "cdp" (some "s1")
      { updateProcessing := .ok (), startRecording := .error "obs down",
        browserSession := .ok ⟨"/d/a.png", "<div></div>", some "s1", none,
          "https://kidpix.claudedraws.com", "draw"⟩,
        stopRecording := .error "not recording", compressVideo := .ok "c.mp4",
        extractMetadata := .ok ("t", "s"), uploadImage := .ok "img",
        uploadVideo := .ok "vid", insertD1 := .ok (),
        updateCompleted := .ok (), cleanupTab := .ok (),
        nowTimestamp := 7 }).2.isOk = true := by decide

/-! ## Heartbeat polling loop of browser_session_activity
    (activities.py lines 425-446) and heartbeat-timeout enforcement -/

/-- Events of the wait-for-completion loop inside
`browser_session_activity`. -/
inductive HbEv where
  | heartbeat
  | pollStopButton
  | waitOneSecond
deriving DecidableEq, Repr

/-- Embedding of the wait loop of `browser_session_activity` (activities.py
lines 427-446).  Each iteration, at elapsed second `k`: emit
`activity.heartbeat()`, poll whether the stop button is still visible; if it
is not, break successfully; if `elapsed > 12 minutes` raise a timeout; else
wait one second and loop.  `remaining` is the number of whole seconds left
until `elapsed > 720`; each 1-second wait consumes one, so the timeout check
fires exactly at `remaining = 0`. -/
def waitLoop (stopVisible : Nat → Bool) (k : Nat) :
    Nat → List HbEv × Except String Unit
  | 0 =>
    if stopVisible k then
      ([.heartbeat, .pollStopButton],
       .error "Claude did not finish within 12 minutes")
    else
      ([.heartbeat, .pollStopButton], .ok ())
  | r + 1 =>
    if stopVisible k then
      let rest := waitLoop stopVisible (k + 1) r
      (.heartbeat :: .pollStopButton :: .waitOneSecond :: rest.1, rest.2)
    else
      ([.heartbeat, .pollStopButton], .ok ())

/-- The full wait for Claude: `timeout_ms = 12 * 60 * 1000`, polling starts
at elapsed 0 and the timeout check first fires at elapsed 721 seconds (the
first instant with `elapsed > 720`). -/
def waitForClaude (stopVisible : Nat → Bool) : List HbEv × Except String Unit :=
  waitLoop stopVisible 0 721

/-- The iteration discipline of the wait loop, as a checkable predicate on
its event trace: every poll of the completion condition is immediately
preceded by a heartbeat, and consecutive polls are separated by exactly one
1-second wait. -/
def hbPattern : List HbEv → Bool
  | .heartbeat :: .pollStopButton :: rest =>
    match rest with
    | [] => true
    | .waitOneSecond :: rest2 => hbPattern rest2
    | _ => false
  | _ => false

/-- Heartbeat timeout configured for `browser_session_activity` by
`CreateArtworkWorkflow.run` (create_artwork.py line 95), in seconds. -/
def browserSessionHeartbeatTimeoutSeconds : Nat := 30

/-- Start-to-close timeout configured for `browser_session_activity`
(create_artwork.py line 94), in seconds: 15 minutes. -/
def browserSessionStartToCloseSeconds : Nat := 900

/-- View the engine takes of an in-flight activity invocation. -/
inductive InvocationView where
  | runningFine
  | stalledFailed
deriving DecidableEq, Repr

/-- Modelled from the spec: heartbeat-timeout enforcement is performed by
the Temporal engine, which is not part of this repository.  Per the spec
(§4.3), "if no heartbeat arrives within that window, the invocation is
declared stalled and failed, regardless of whether the underlying process is
technically still alive".  `underlyingStillRunning` records whether the
underlying call has thrown or returned; it does not influence the verdict. -/
def enforceHeartbeatTimeout (heartbeatTimeout lastHeartbeatAt now : Nat)
    (underlyingStillRunning : Bool) : InvocationView :=
  if heartbeatTimeout < now - lastHeartbeatAt then .stalledFailed
  else if underlyingStillRunning then .runningFine else .runningFine

/-! ## Retry policy engine (modelled from the spec, §4.2 and §8;
    policies constructed in cli.py lines 89-102 and
    check_submissions.py lines 109-118) -/

/-- A Temporal `RetryPolicy` as constructed by this repository: intervals in
seconds (rationals, since `backoff_coefficient` is fractional-valued). -/
structure RetryPolicySpec where
  initial_interval : ℚ
  backoff_coefficient : ℚ
  maximum_interval : ℚ
  maximum_attempts : Nat
deriving DecidableEq, Repr

/-- The retry policy the continuous-mode launch path builds
(cli.py lines 93-98): initial 10 s, cap 3 minutes, coefficient 2.0,
`maximum_attempts = 0`. -/
def cliContinuousRetryPolicy : RetryPolicySpec :=
  { initial_interval := 10, backoff_coefficient := 2,
    maximum_interval := 180, maximum_attempts := 0 }

/-- `maximum_attempts` of the retry policy `CheckSubmissionsWorkflow.run`
passes when dispatching the child `CreateArtworkWorkflow`
(check_submissions.py line 115): `0 if continuous else 3`. -/
def childArtworkRetryMaxAttempts (continuous : Bool) : Nat :=
  if continuous then 0 else 3

/-- Modelled from the spec: the engine's backoff computation is not part of
this repository.  Per the spec (§3, §4.2), the engine grows the current
retry interval multiplicatively and caps it at `maximum_interval`; index `n`
is the delay before retry `n+1`. -/
def engineDelay (I C M : ℚ) : Nat → ℚ
  | 0 => min I M
  | n + 1 => min (engineDelay I C M n * C) M

/-- Delay the engine sleeps before the nth retry (n ≥ 1) of an invocation
governed by policy `p`. -/
def delayBeforeNthRetry (p : RetryPolicySpec) (n : Nat) : ℚ :=
  engineDelay p.initial_interval p.backoff_coefficient p.maximum_interval (n - 1)

/-- Modelled from the spec: per-invocation attempt bookkeeping lives in the
engine, not this repository.  The attempt counter starts at 1 when the
invocation is created. -/
structure InvocationState where
  attempt : Nat
deriving DecidableEq, Repr

/-- A freshly created invocation: attempt counter 1. -/
def newInvocation : InvocationState := ⟨1⟩

/-- The only transition touching the attempt counter: scheduling a retry
increments it.  Nothing resets it short of creating a new invocation. -/
def afterRetry (s : InvocationState) : InvocationState := ⟨s.attempt + 1⟩

/-- Modelled from the spec (§4.2, §7, §8): after the `attemptNumber`th
attempt fails, the engine schedules attempt `attemptNumber + 1` iff
`maximum_attempts = 0` (retry forever) or the next attempt number still
fits within `maximum_attempts` total attempts. -/
def retryAllowedAfterAttempt (maximumAttempts attemptNumber : Nat) : Bool :=
  maximumAttempts = 0 || attemptNumber + 1 ≤ maximumAttempts

example : (waitForClaude (fun k => k < 3)).1 =
    [.heartbeat, .pollStopButton, .waitOneSecond,
     .heartbeat, .pollStopButton, .waitOneSecond,
     .heartbeat, .pollStopButton, .waitOneSecond,
     .heartbeat, .pollStopButton] := by decide
example : hbPattern (waitForClaude (fun k => k < 3)).1 = true := by decide
example : delayBeforeNthRetry cliContinuousRetryPolicy 5 = 160 := by
  norm_num [delayBeforeNthRetry, engineDelay, cliContinuousRetryPolicy, min_def]
example : retryAllowedAfterAttempt 0 1000 = true := by decide
example : retryAllowedAfterAttempt 1 1 = false := by decide

/-- `True` for `start_obs_recording` events. -/
def AEv.isStartRecording : AEv → Bool
  | .start_obs_recording => true
  | _ => false

/-- A concrete browser-session result for the recording-failure scenario. -/
def c4Browser : BrowserSessionResult :=
  { image_path := "/downloads/claudedraws-7.png", response_html := "<div></div>",
    submission_id := some "sub-1", submission_email := some "a@example.com",
    tab_url := "https://kidpix.claudedraws.com", prompt := "draw a cat" }

/-- A concrete activity environment for the recording-failure scenario:
`start_obs_recording` fails permanently, so does `stop_obs_recording`
(there is no recording to stop), and every mandatory activity succeeds. -/
def c4Env : ArtworkEnv :=
  { updateProcessing := .ok (), startRecording := .error "obs down",
    browserSession := .ok c4Browser,
    stopRecording := .error "not recording",
    compressVideo := .ok "compressed.mp4",
    extractMetadata := .ok ("Title", "Statement"),
    uploadImage := .ok "https://img.example/a.png",
    uploadVideo := .ok "https://vid.example/a.mp4",
    insertD1 := .ok (), updateCompleted := .ok (), cleanupTab := .ok (),
    nowTimestamp := 7 }

/-! ## Theorems -/

/-- Helper: the wait loop obeys the heartbeat/poll/1-second-wait discipline
from any starting second and any remaining budget. -/
theorem waitLoop_hbPattern (stopVisible : Nat → Bool) :
    ∀ r k, hbPattern (waitLoop stopVisible k r).1 = true := by
  intro r
  induction r with
  | zero =>
    intro k
    unfold waitLoop
    cases h : stopVisible k <;> simp [hbPattern]
  | succ m ih =>
    intro k
    unfold waitLoop
    cases h : stopVisible k
    · simp [hbPattern]
    · simpa [hbPattern] using ih (k + 1)

/-- Helper: `pad2` agrees with the two-digit rendering below 60. -/
theorem pad2_two_digits : ∀ m, m < 60 →
    pad2 m = toString (m / 10) ++ toString (m % 10) := by decide

/-- C1 (counterexample): the transition to `"processing"` is not a
compare-and-set.  With the single submission `"sub-1"` already in status
`"processing"` (hence not `"pending"`), the claim operation still reports
success; and starting from a pending `"sub-1"`, two consecutive claim
operations both report success — two `"processing"` transitions, no
rejection. -/
theorem processing_claim_cas_counterexample :
    statusOf [⟨"sub-1", "processing", none, none, none⟩] "sub-1" ≠ some "pending" ∧
    (claimProcessing [⟨"sub-1", "processing", none, none, none⟩] "sub-1").2 = true ∧
    (claimProcessing [⟨"sub-1", "pending", none, none, none⟩] "sub-1").2 = true ∧
    (claimProcessing
      (claimProcessing [⟨"sub-1", "pending", none, none, none⟩] "sub-1").1
      "sub-1").2 = true ∧
    statusOf (claimProcessing [⟨"sub-1", "pending", none, none, none⟩] "sub-1").1
      "sub-1" = some "processing" := by
  decide

/-- C1 (amended): `update_submission_status` is an unconditional update
(`UPDATE submissions SET status = ? WHERE id = ?`, filtered by id only), so
the transition to `"processing"` reports success whatever the submission's
current status, and two claim operations against the same pending item both
succeed. -/
theorem processing_claim_unconditional (db : SubmissionsDb)
    (sid status : String) (artworkId errorMessage : Option String)
    (nowIso : Nat) :
    (update_submission_status db sid status artworkId errorMessage nowIso).2
      = true ∧
    (claimProcessing db sid).2 = true ∧
    (claimProcessing (claimProcessing db sid).1 sid).2 = true := by
  refine ⟨?_, rfl, rfl⟩
  unfold update_submission_status
  split
  · rfl
  · split <;> rfl

/-- C2: in continuous mode, with `check_for_pending_submissions` returning
`None` on three consecutive check cycles and then a submission `"sub-1"`,
the workflow chain performs exactly three countdown cycles (one per `None`
result, none in the fourth cycle), dispatches exactly one child workflow,
whose arguments contain `"sub-1"`, and ends via continue-as-new rather than
returning a value. -/
theorem poll_loop_scenario :
    c2Runs.length = 4 ∧
    (c2Runs.map (fun run => (run.1.count (Ev.update_countdown_text 60),
        (run.1.filter Ev.isStartChild).length)))
      = [(1, 0), (1, 0), (1, 0), (0, 1)] ∧
    (c2Trace.filter Ev.isCountdownUpdate).length = 180 ∧
    c2Trace.filter Ev.isStartChild
      = [.start_child_workflow "CreateArtworkWorkflow" "cdp" false "sub-1"] ∧
    c2Runs.getLast?.map Prod.snd = some (.continueAsNew "cdp" true) := by
  decide

/-- C5: in continuous mode, every check cycle — submission found or not,
streaming stopped or not — terminates by continue-as-new carrying exactly
the explicit arguments `[cdp_url, continuous]`, and the history of a single
cycle (which is all continue-as-new lets persist) never exceeds 127 events,
a bound independent of how many cycles have run. -/
theorem continuous_cycle_continue_as_new (cdpUrl : String) (env : CheckEnv) :
    (runCheckIteration cdpUrl true env).2 = .continueAsNew cdpUrl true ∧
    (runCheckIteration cdpUrl true env).1.length ≤ 127 := by
  have hlen : countdownBlock.length = 120 := by decide
  obtain ⟨pending, childUrl, inact, ts⟩ := env
  cases pending <;> cases inact <;>
    simp [runCheckIteration, hlen]

/-- C8: when the body of `browser_session_activity` raises while the
activity holds its tab, the handler attempts to close the tab before
propagating, and the exception that propagates is always the original one —
whether the close succeeds or itself fails (the latter being only
logged). -/
theorem browser_session_cleanup_preserves_error
    (body : Except String BrowserSessionResult)
    (closeTab : Except String Unit) (e : String)
    (hb : body = .error e) :
    (browserSessionErrorPath body closeTab).2 = .error e ∧
    (browserSessionErrorPath body closeTab).1.contains .closeTabAttempt
      = true := by
  subst hb
  cases closeTab <;> exact ⟨rfl, rfl⟩

/-- C8 witness: the error path at a concrete failing body whose tab close
also fails. -/
theorem browser_session_cleanup_preserves_error_witness :
    (Except.error "boom" : Except String BrowserSessionResult)
        = Except.error "boom" ∧
    ((browserSessionErrorPath (.error "boom") (.error "close failed")).2
        = .error "boom" ∧
     (browserSessionErrorPath (.error "boom")
        (.error "close failed")).1.contains .closeTabAttempt = true) :=
  ⟨rfl, browser_session_cleanup_preserves_error (.error "boom")
    (.error "close failed") "boom" rfl⟩

/-- C9: `extract_artwork_metadata` never propagates an error: on every
input it returns normally, and whenever the structured extraction fails it
returns the fallback pair `("(untitled)", "(no statement found)")`; the
workflow nevertheless configures 3 attempts for it. -/
theorem metadata_extraction_never_fails
    (bamlExtract : String → Except String (String × String))
    (responseHtml : String) (e : String)
    (hfail : bamlExtract responseHtml = .error e) :
    (∀ (g : String → Except String (String × String)) (html2 : String),
      (extract_artwork_metadata g html2).isOk = true) ∧
    extract_artwork_metadata bamlExtract responseHtml = .ok metadataFallback ∧
    extractMetadataRetryMaxAttempts = 3 := by
  refine ⟨?_, ?_, rfl⟩
  · intro g html2
    unfold extract_artwork_metadata
    cases g html2 <;> rfl
  · unfold extract_artwork_metadata
    rw [hfail]

/-- C9 witness: a concrete always-failing extraction returns the fallback
pair and the activity returns normally. -/
theorem metadata_extraction_never_fails_witness :
    (fun _ : String => (Except.error "parse error" :
        Except String (String × String))) "<div>x</div>" = .error "parse error" ∧
    ((∀ (g : String → Except String (String × String)) (html2 : String),
        (extract_artwork_metadata g html2).isOk = true) ∧
     extract_artwork_metadata (fun _ => .error "parse error") "<div>x</div>"
        = .ok metadataFallback ∧
     extractMetadataRetryMaxAttempts = 3) :=
  ⟨rfl, metadata_extraction_never_fails (fun _ => .error "parse error")
    "<div>x</div>" "parse error" rfl⟩

/-- C10: `update_countdown_text` writes exactly `"Next check: M:SS"` with
`M = s // 60` and `SS = s % 60` zero-padded to two digits, for every
non-negative `s`; and the countdown loop takes `seconds_remaining` through
each value from 60 down to 1, pairing each update with one 1-second
timer. -/
theorem countdown_text_and_loop (s i : Nat) (hi : i < 60) :
    countdownText s = countdownTextSpec s ∧
    countdownSeconds.length = 60 ∧
    countdownSeconds[i]? = some (60 - i) ∧
    countdownBlock.length = 120 ∧
    countdownBlock[2 * i]? = some (.update_countdown_text (60 - i)) ∧
    countdownBlock[2 * i + 1]? = some (.sleepTimer 1) := by
  refine ⟨?_, by decide, ?_, by decide, ?_, ?_⟩
  · have hm : s % 60 < 60 := Nat.mod_lt _ (by norm_num)
    unfold countdownText countdownTextSpec
    rw [pad2_two_digits _ hm]
  · exact (by decide :
      ∀ j, j < 60 → countdownSeconds[j]? = some (60 - j)) i hi
  · exact (by decide : ∀ j, j < 60 →
      countdownBlock[2 * j]? = some (.update_countdown_text (60 - j))) i hi
  · exact (by decide : ∀ j, j < 60 →
      countdownBlock[2 * j + 1]? = some (.sleepTimer 1)) i hi

/-- C10 witness: the countdown text and loop values at concrete inputs
`s = 125`, `i = 3`. -/
theorem countdown_text_and_loop_witness :
    3 < 60 ∧
    (countdownText 125 = countdownTextSpec 125 ∧
     countdownSeconds.length = 60 ∧
     countdownSeconds[3]? = some 57 ∧
     countdownBlock.length = 120 ∧
     countdownBlock[6]? = some (.update_countdown_text 57) ∧
     countdownBlock[7]? = some (.sleepTimer 1)) :=
  ⟨by decide, countdown_text_and_loop 125 3 (by decide)⟩

/-- C4: if the optional `start_obs_recording` activity fails permanently
(and hence `stop_obs_recording` yields no video path), the run still
executes the browser session, metadata extraction, image upload, D1 insert
(with a `None` video URL) and the trailing tab cleanup, skips the video
compression and video upload stages, and completes successfully. -/
theorem pipeline_salvages_recording_failure (cdpUrl : String)
    (submissionId : Option String) (env : ArtworkEnv)
    (errStart errStop : String) (br : BrowserSessionResult)
    (meta : String × String) (imageUrl : String)
    (hup : env.updateProcessing = .ok ())
    (hstart : env.startRecording = .error errStart)
    (hbr : env.browserSession = .ok br)
    (hstop : env.stopRecording = .error errStop)
    (hmeta : env.extractMetadata = .ok meta)
    (himg : env.uploadImage = .ok imageUrl)
    (hins : env.insertD1 = .ok ())
    (hupc : env.updateCompleted = .ok ())
    (hclean : env.cleanupTab = .ok ()) :
    (runCreateArtwork cdpUrl submissionId env).2.isOk = true ∧
    (runCreateArtwork cdpUrl submissionId env).1.any AEv.isBrowserSession
      = true ∧
    (runCreateArtwork cdpUrl submissionId env).1.any AEv.isExtractMetadata
      = true ∧
    (runCreateArtwork cdpUrl submissionId env).1.any AEv.isUploadImage
      = true ∧
    (runCreateArtwork cdpUrl submissionId env).1.filter AEv.isInsertD1
      = [.insert_artwork_to_d1 ("claudedraws-" ++ toString env.nowTimestamp)
          none] ∧
    (runCreateArtwork cdpUrl submissionId env).1.any AEv.isCleanupTab
      = true ∧
    (runCreateArtwork cdpUrl submissionId env).1.all
      (fun e => !(AEv.isCompressVideo e)) = true ∧
    (runCreateArtwork cdpUrl submissionId env).1.all
      (fun e => !(AEv.isUploadVideo e)) = true ∧
    (runCreateArtwork cdpUrl submissionId env).1.filter AEv.isStartRecording
      = [.start_obs_recording] := by
  obtain ⟨up, sr, bs, st, cv, exm, ui, uv, ins, upc, ct, ts⟩ := env
  obtain ⟨ip, rh, bsid, bemail, turl, bprompt⟩ := br
  dsimp only at hup hstart hbr hstop hmeta himg hins hupc hclean
  subst hup hstart hbr hstop hmeta himg hins hupc hclean
  cases submissionId <;> cases bsid <;> cases bemail <;>
    exact ⟨rfl, rfl, rfl, rfl, rfl, rfl, rfl, rfl, rfl⟩

/-- C4 witness: the recording-failure scenario at the concrete environment
`c4Env`. -/
theorem pipeline_salvages_recording_failure_witness :
    (c4Env.updateProcessing = .ok () ∧
     c4Env.startRecording = .error "obs down" ∧
     c4Env.browserSession = .ok c4Browser ∧
     c4Env.stopRecording = .error "not recording" ∧
     c4Env.extractMetadata = .ok ("Title", "Statement") ∧
     c4Env.uploadImage = .ok "https://img.example/a.png" ∧
     c4Env.insertD1 = .ok () ∧
     c4Env.updateCompleted = .ok () ∧
     c4Env.cleanupTab = .ok ()) ∧
    ((runCreateArtwork "cdp" (some "sub-1") c4Env).2.isOk = true ∧
     (runCreateArtwork "cdp" (some "sub-1") c4Env).1.any AEv.isBrowserSession
       = true ∧
     (runCreateArtwork "cdp" (some "sub-1") c4Env).1.any AEv.isExtractMetadata
       = true ∧
     (runCreateArtwork "cdp" (some "sub-1") c4Env).1.any AEv.isUploadImage
       = true ∧
     (runCreateArtwork "cdp" (some "sub-1") c4Env).1.filter AEv.isInsertD1
       = [.insert_artwork_to_d1
           ("claudedraws-" ++ toString c4Env.nowTimestamp) none] ∧
     (runCreateArtwork "cdp" (some "sub-1") c4Env).1.any AEv.isCleanupTab
       = true ∧
     (runCreateArtwork "cdp" (some "sub-1") c4Env).1.all
       (fun e => !(AEv.isCompressVideo e)) = true ∧
     (runCreateArtwork "cdp" (some "sub-1") c4Env).1.all
       (fun e => !(AEv.isUploadVideo e)) = true ∧
     (runCreateArtwork "cdp" (some "sub-1") c4Env).1.filter
       AEv.isStartRecording = [.start_obs_recording]) :=
  ⟨⟨rfl, rfl, rfl, rfl, rfl, rfl, rfl, rfl, rfl⟩,
   pipeline_salvages_recording_failure "cdp" (some "sub-1") c4Env
     "obs down" "not recording" c4Browser ("Title", "Statement")
     "https://img.example/a.png" rfl rfl rfl rfl rfl rfl rfl rfl rfl⟩

/-- C3: the engine (modelled from the spec) declares an invocation with
heartbeat timeout 30 s stalled and fails it whenever the gap since the last
heartbeat exceeds 30 s, irrespective of whether the underlying call is
still running; the browser-session activity's wait loop heartbeats on every
poll iteration, polling every 1 second; and `CreateArtworkWorkflow`
configures the activity with `heartbeat_timeout` 30 s and
`start_to_close_timeout` 15 minutes. -/
theorem heartbeat_timeout_enforcement (stopVisible : Nat → Bool)
    (lastHeartbeatAt now : Nat) (stillRunning : Bool)
    (hgap : browserSessionHeartbeatTimeoutSeconds < now - lastHeartbeatAt) :
    enforceHeartbeatTimeout browserSessionHeartbeatTimeoutSeconds
      lastHeartbeatAt now stillRunning = .stalledFailed ∧
    hbPattern (waitForClaude stopVisible).1 = true ∧
    browserSessionHeartbeatTimeoutSeconds = 30 ∧
    browserSessionStartToCloseSeconds = 900 := by
  refine ⟨?_, waitLoop_hbPattern stopVisible 721 0, rfl, rfl⟩
  unfold enforceHeartbeatTimeout
  rw [if_pos hgap]

/-- C3 witness: a 31-second heartbeat gap at concrete inputs. -/
theorem heartbeat_timeout_enforcement_witness :
    browserSessionHeartbeatTimeoutSeconds < 31 - 0 ∧
    (enforceHeartbeatTimeout browserSessionHeartbeatTimeoutSeconds 0 31 true
       = .stalledFailed ∧
     hbPattern (waitForClaude (fun k => k < 2)).1 = true ∧
     browserSessionHeartbeatTimeoutSeconds = 30 ∧
     browserSessionStartToCloseSeconds = 900) :=
  ⟨by decide, heartbeat_timeout_enforcement (fun k => k < 2) 0 31 true
    (by decide)⟩

/-- Helper: closed form of the engine's capped multiplicative backoff. -/
theorem engineDelay_closed_form (I C M : ℚ) (hI : 0 ≤ I) (hC : 1 ≤ C)
    (hM : 0 ≤ M) : ∀ n, engineDelay I C M n = min (I * C ^ n) M := by
  intro n
  induction n with
  | zero => simp [engineDelay]
  | succ k ih =>
    have hC0 : (0 : ℚ) ≤ C := le_trans zero_le_one hC
    have hMC : M ≤ M * C := le_mul_of_one_le_right hM hC
    rw [engineDelay, ih, min_mul_of_nonneg _ _ hC0, min_assoc,
      min_eq_right hMC, pow_succ, ← mul_assoc]

/-- C6: under any retry policy with initial interval `I ≥ 0`, backoff
coefficient `C ≥ 1` and cap `M ≥ 0`, the engine's delay before the nth
retry equals `min(I * C^(n-1), M)`; the attempt counter starts at 1 at
invocation creation, is only ever incremented by retries, and never returns
to its creation value. -/
theorem retry_delay_formula (I C M : ℚ) (m n : Nat)
    (hI : 0 ≤ I) (hC : 1 ≤ C) (hM : 0 ≤ M) (hn : 1 ≤ n) :
    delayBeforeNthRetry ⟨I, C, M, m⟩ n = min (I * C ^ (n - 1)) M ∧
    newInvocation.attempt = 1 ∧
    (∀ s : InvocationState, (afterRetry s).attempt = s.attempt + 1) ∧
    (∀ s : InvocationState, 1 ≤ s.attempt → 1 < (afterRetry s).attempt) := by
  refine ⟨?_, rfl, fun s => rfl, fun s hs => ?_⟩
  · exact engineDelay_closed_form I C M hI hC hM (n - 1)
  · simp only [afterRetry]
    omega

/-- C6 witness: the policy the continuous-mode launch path constructs
(initial 10 s, coefficient 2, cap 180 s): the delay before the 5th retry is
`min(10 * 2^4, 180) = 160` seconds. -/
theorem retry_delay_formula_witness :
    (0 : ℚ) ≤ 10 ∧ (1 : ℚ) ≤ 2 ∧ (0 : ℚ) ≤ 180 ∧ 1 ≤ 5 ∧
    (delayBeforeNthRetry cliContinuousRetryPolicy 5
        = min ((10 : ℚ) * 2 ^ (5 - 1)) 180 ∧
     newInvocation.attempt = 1 ∧
     (∀ s : InvocationState, (afterRetry s).attempt = s.attempt + 1) ∧
     (∀ s : InvocationState, 1 ≤ s.attempt → 1 < (afterRetry s).attempt)) :=
  ⟨by norm_num, by norm_num, by norm_num, by norm_num,
   retry_delay_formula 10 2 180 0 5 (by norm_num) (by norm_num)
     (by norm_num) (by norm_num)⟩

/-- C7: `maximum_attempts = 0` means retry forever — after any number of
failed attempts the engine allows another — while `maximum_attempts = 1`
allows no retry after the first attempt; the continuous-mode launch path
and the continuous-mode child-workflow dispatch both use
`maximum_attempts = 0` (the non-continuous dispatch uses 3). -/
theorem infinite_retry_distinction (n : Nat) (hn : 1 ≤ n) :
    retryAllowedAfterAttempt 0 n = true ∧
    retryAllowedAfterAttempt 1 n = false ∧
    cliContinuousRetryPolicy.maximum_attempts = 0 ∧
    childArtworkRetryMaxAttempts true = 0 ∧
    childArtworkRetryMaxAttempts false = 3 := by
  refine ⟨rfl, ?_, rfl, rfl, rfl⟩
  simp only [retryAllowedAfterAttempt, Bool.or_eq_false_iff,
    decide_eq_false_iff_not]
  omega

/-- C7 witness: 1000 consecutive induced failures are still followed by a
retry under `maximum_attempts = 0`, and not under `maximum_attempts = 1`. -/
theorem infinite_retry_distinction_witness :
    1 ≤ 1000 ∧
    (retryAllowedAfterAttempt 0 1000 = true ∧
     retryAllowedAfterAttempt 1 1000 = false ∧
     cliContinuousRetryPolicy.maximum_attempts = 0 ∧
     childArtworkRetryMaxAttempts true = 0 ∧
     childArtworkRetryMaxAttempts false = 3) :=
  ⟨by decide, infinite_retry_distinction 1000 (by decide)⟩
